import Mathlib

/-!
Formal model of `challenge-2/agents/json_structuring_agent.py`.

Python strings are modelled as lists of characters (`Str`), JSON values as the
inductive `JValue`, Python exceptions as `PyExn`, and fallible Python code as
`Except PyExn`.  The remote model call is a parameter (`RemoteResult`): either
the response text or a transport failure.  `datetime.now().isoformat()` and the
model deployment name are passed in as parameters `ts` and `mdl`.
-/

/-- Python strings, viewed as their character sequences. -/
abbrev Str := List Char

/-- Whitespace stripped by Python `str.strip()` (the ASCII whitespace set). -/
def pyWs (c : Char) : Bool :=
  c == ' ' || c == '\t' || c == '\n' || c == '\r' || c == '\x0b' || c == '\x0c'

/-- Python `str.strip()`: drop whitespace from both ends. -/
def pyStrip (s : Str) : Str :=
  ((s.dropWhile pyWs).reverse.dropWhile pyWs).reverse

/-- Python `str.find` for a single character: index of the first occurrence,
`none` standing for Python's `-1`. -/
def pyFind (c : Char) : Str → Option Nat
  | [] => none
  | x :: xs => if x == c then some 0 else (pyFind c xs).map (· + 1)

/-- Python `str.rfind` for a single character: index of the last occurrence,
`none` standing for Python's `-1`. -/
def pyRFind (c : Char) (s : Str) : Option Nat :=
  (pyFind c s.reverse).map (fun i => s.length - 1 - i)

/-- Python slice `s[i : j+1]` (inclusive slice from index `i` to index `j`). -/
def sliceIncl (s : Str) (i j : Nat) : Str :=
  (s.drop i).take (j + 1 - i)

/-- The markdown fence marker, three backticks. -/
def fenceStr : Str := "\x60\x60\x60".data

/-- Opening curly brace character. -/
def lbrace : Char := '\x7b'

/-- Closing curly brace character. -/
def rbrace : Char := '\x7d'

/-- Lines 165-170 of the source: if the response text starts with the fence
marker, find the first `lbrace` and the last `rbrace` and, when both exist,
replace the text by the inclusive slice between them; otherwise keep it. -/
def fenceTrim (t : Str) : Str :=
  if fenceStr.isPrefixOf t then
    match pyFind lbrace t, pyRFind rbrace t with
    | some i, some j => sliceIncl t i j
    | _, _ => t
  else t

/-- Lines 161-170 of the source: the model response is stripped and then
fence-trimmed; this is the exact text handed to `json.loads`. -/
def normalizeResponse (raw : Str) : Str :=
  fenceTrim (pyStrip raw)

/-- JSON values as produced by Python's `json.loads` (`null` also stands for
Python `None`, which is what `dict.get` returns for a missing key without a
default).  Numbers are modelled as integers; the number grammar of the model
parser below covers the integer literals only. -/
inductive JValue where
  | null
  | bool (b : Bool)
  | num (n : Int)
  | str (s : Str)
  | arr (elems : List JValue)
  | obj (fields : List (Str × JValue))

/-- Insert or overwrite a key in a Python dict, keeping insertion order
(the slot of an existing key is reused, as CPython dicts do). -/
def setField (k : Str) (v : JValue) : List (Str × JValue) → List (Str × JValue)
  | [] => [(k, v)]
  | (k', v') :: rest => if k' = k then (k, v) :: rest else (k', v') :: setField k v rest

/-- Python dict key lookup over the field list. -/
def lookupField (k : Str) : List (Str × JValue) → Option JValue
  | [] => none
  | (k', v) :: rest => if k' = k then some v else lookupField k rest

/-- Key lookup on a `JValue`; `none` when the value is not an object or the
key is absent. -/
def JValue.lookupKey (d : JValue) (k : Str) : Option JValue :=
  match d with
  | .obj fs => lookupField k fs
  | _ => none

/-- Whitespace skipped by the JSON grammar. -/
def jsonWs (c : Char) : Bool :=
  c == ' ' || c == '\t' || c == '\n' || c == '\r'

/-- Drop leading JSON whitespace. -/
def skipWs (s : Str) : Str := s.dropWhile jsonWs

/-- JSON string escape table (`\uXXXX` escapes are outside the model). -/
def escChar (c : Char) : Option Char :=
  if c == '\x22' then some '\x22'
  else if c == '\\' then some '\\'
  else if c == '/' then some '/'
  else if c == 'n' then some '\n'
  else if c == 't' then some '\t'
  else if c == 'r' then some '\r'
  else if c == 'b' then some '\x08'
  else if c == 'f' then some '\x0c'
  else none

/-- Parse the body of a JSON string after the opening quote; returns the
decoded content and the remainder after the closing quote. -/
def parseStrBody : Str → Except Str (Str × Str)
  | [] => Except.error "Unterminated string".data
  | c :: rest =>
    if c == '\x22' then Except.ok ([], rest)
    else if c == '\\' then
      match rest with
      | [] => Except.error "Unterminated string escape".data
      | e :: rest' =>
        match escChar e with
        | some ce =>
          match parseStrBody rest' with
          | Except.ok (s, r) => Except.ok (ce :: s, r)
          | Except.error m => Except.error m
        | none => Except.error "Invalid escape".data
    else
      match parseStrBody rest with
      | Except.ok (s, r) => Except.ok (c :: s, r)
      | Except.error m => Except.error m

/-- Digit run of a number literal. -/
def digitSpan (s : Str) : Str × Str :=
  (s.takeWhile Char.isDigit, s.dropWhile Char.isDigit)

/-- Value of a digit run. -/
def digitsToNat : Str → Nat → Nat
  | [], acc => acc
  | c :: cs, acc => digitsToNat cs (acc * 10 + (c.toNat - 48))

mutual

/-- Recursive-descent JSON value parser (fuel-indexed so that recursion is
structural; `jsonLoads` supplies ample fuel). -/
def parseVal : Nat → Str → Except Str (JValue × Str)
  | 0, _ => Except.error "Depth exhausted".data
  | fuel + 1, s0 =>
    match skipWs s0 with
    | [] => Except.error "Expecting value".data
    | c :: rest =>
      if c == lbrace then
        match skipWs rest with
        | d :: r2 =>
          if d == rbrace then Except.ok (JValue.obj [], r2)
          else parseMembers fuel (d :: r2) []
        | [] => Except.error "Expecting property name".data
      else if c == '[' then
        match skipWs rest with
        | d :: r2 =>
          if d == ']' then Except.ok (JValue.arr [], r2)
          else parseElems fuel (d :: r2) []
        | [] => Except.error "Expecting value".data
      else if c == '\x22' then
        match parseStrBody rest with
        | Except.ok (sv, r) => Except.ok (JValue.str sv, r)
        | Except.error m => Except.error m
      else if c == 't' then
        match rest with
        | 'r' :: 'u' :: 'e' :: r => Except.ok (JValue.bool true, r)
        | _ => Except.error "Expecting value".data
      else if c == 'f' then
        match rest with
        | 'a' :: 'l' :: 's' :: 'e' :: r => Except.ok (JValue.bool false, r)
        | _ => Except.error "Expecting value".data
      else if c == 'n' then
        match rest with
        | 'u' :: 'l' :: 'l' :: r => Except.ok (JValue.null, r)
        | _ => Except.error "Expecting value".data
      else if c == '-' then
        match digitSpan rest with
        | ([], _) => Except.error "Expecting value".data
        | (ds, r) => Except.ok (JValue.num (-(digitsToNat ds 0 : Int)), r)
      else if c.isDigit then
        match digitSpan (c :: rest) with
        | (ds, r) => Except.ok (JValue.num (digitsToNat ds 0 : Int), r)
      else Except.error "Expecting value".data

/-- Parse the members of a JSON object after its opening brace (non-empty
case); duplicate keys overwrite earlier ones, as in Python. -/
def parseMembers : Nat → Str → List (Str × JValue) → Except Str (JValue × Str)
  | 0, _, _ => Except.error "Depth exhausted".data
  | fuel + 1, s, acc =>
    match skipWs s with
    | '\x22' :: rest =>
      match parseStrBody rest with
      | Except.error m => Except.error m
      | Except.ok (key, r1) =>
        match skipWs r1 with
        | ':' :: r2 =>
          match parseVal fuel r2 with
          | Except.error m => Except.error m
          | Except.ok (v, r3) =>
            match skipWs r3 with
            | ',' :: r4 => parseMembers fuel r4 (setField key v acc)
            | d :: r4 =>
              if d == rbrace then Except.ok (JValue.obj (setField key v acc), r4)
              else Except.error "Expecting delimiter".data
            | [] => Except.error "Expecting delimiter".data
        | _ => Except.error "Expecting colon".data
    | _ => Except.error "Expecting property name".data

/-- Parse the elements of a JSON array after its opening bracket (non-empty
case). -/
def parseElems : Nat → Str → List JValue → Except Str (JValue × Str)
  | 0, _, _ => Except.error "Depth exhausted".data
  | fuel + 1, s, acc =>
    match parseVal fuel s with
    | Except.error m => Except.error m
    | Except.ok (v, r) =>
      match skipWs r with
      | ',' :: r2 => parseElems fuel r2 (acc ++ [v])
      | d :: r2 =>
        if d == ']' then Except.ok (JValue.arr (acc ++ [v]), r2)
        else Except.error "Expecting delimiter".data
      | [] => Except.error "Expecting delimiter".data

end

/-- Model of Python `json.loads`: parse one JSON value and require only
whitespace after it. -/
def jsonLoads (s : Str) : Except Str JValue :=
  match parseVal (2 * s.length + 8) s with
  | Except.error m => Except.error m
  | Except.ok (v, rest) =>
    if (skipWs rest).isEmpty then Except.ok v
    else Except.error "Extra data".data

/-- Python exceptions relevant to the two entry points. -/
inductive PyExn where
  | jsonDecodeError (msg : Str)
  | typeError (msg : Str)
  | attributeError (msg : Str)
  | transportError (msg : Str)

/-- Message text of an exception, Python's `str(e)`. -/
def PyExn.msg : PyExn → Str
  | .jsonDecodeError m => m
  | .typeError m => m
  | .attributeError m => m
  | .transportError m => m

/-- Outcome of the remote agent call (client creation, agent registration and
`responses.create` together): the response text, or a transport failure. -/
inductive RemoteResult where
  | ok (text : Str)
  | fail (msg : Str)

/-- Python truthiness of a JSON value. -/
def pyTruthy : JValue → Bool
  | .null => false
  | .bool b => b
  | .num n => decide (n ≠ 0)
  | .str s => !s.isEmpty
  | .arr l => !l.isEmpty
  | .obj l => !l.isEmpty

/-- Python `==` between a JSON value and a string literal (false across
types, as in Python). -/
def JValue.eqStr (v : JValue) (t : Str) : Bool :=
  match v with
  | .str s => s == t
  | _ => false

/-- Python `d.get(k, default)`: an `AttributeError` when `d` is not a dict. -/
def pyGet (d : JValue) (k : Str) (default : JValue) : Except PyExn JValue :=
  match d with
  | .obj fs => Except.ok ((lookupField k fs).getD default)
  | _ => Except.error (.attributeError "object has no attribute get".data)

/-- Python `d[k] = v`: a `TypeError` when `d` does not support item
assignment. -/
def setKeyChecked (d : JValue) (k : Str) (v : JValue) : Except PyExn JValue :=
  match d with
  | .obj fs => Except.ok (.obj (setField k v fs))
  | _ => Except.error (.typeError "object does not support item assignment".data)

/-- Python `len`: defined on strings, lists and dicts, a `TypeError`
otherwise. -/
def pyLen : JValue → Except PyExn Nat
  | .str s => Except.ok s.length
  | .arr l => Except.ok l.length
  | .obj l => Except.ok l.length
  | _ => Except.error (.typeError "object has no len".data)

/-- Single-quote character, used by the Python `repr` of strings. -/
def squote : Char := Char.ofNat 39

mutual

/-- Python `repr`, to the extent the user-query template can observe it
(string escaping inside `repr` is not modelled; no claim depends on it). -/
def pyRepr : JValue → Str
  | .null => "None".data
  | .bool true => "True".data
  | .bool false => "False".data
  | .num n => (toString n).data
  | .str s => squote :: s ++ [squote]
  | .arr l => '[' :: pyReprList l ++ [']']
  | .obj fs => lbrace :: pyReprFields fs ++ [rbrace]

/-- Comma-separated `repr` of list elements. -/
def pyReprList : List JValue → Str
  | [] => []
  | [x] => pyRepr x
  | x :: y :: xs => pyRepr x ++ ',' :: ' ' :: pyReprList (y :: xs)

/-- Comma-separated `repr` of dict items. -/
def pyReprFields : List (Str × JValue) → Str
  | [] => []
  | [(k, v)] => squote :: k ++ squote :: ':' :: ' ' :: pyRepr v
  | (k, v) :: p :: fs =>
    squote :: k ++ squote :: ':' :: ' ' :: pyRepr v ++ ',' :: ' ' :: pyReprFields (p :: fs)

end

/-- Python `str()` as used by f-string interpolation. -/
def pyStr : JValue → Str
  | .str s => s
  | v => pyRepr v

/-- Text of the user query before the interpolated OCR text (line 144-146). -/
def queryHead : Str :=
  ("Please extract and structure all text from the following OCR output " ++
   "into the standardized JSON format.\n\n---OCR TEXT START---\n").data

/-- Text of the user query after the interpolated OCR text (line 148-150). -/
def queryTail : Str :=
  "\n---OCR TEXT END---\n\nReturn only the structured JSON object with all extracted text.".data

/-- The user query sent to the model (lines 144-150): the OCR text embedded
verbatim in the fixed template. -/
def userQuery (ocr_text : JValue) : Str :=
  queryHead ++ pyStr ocr_text ++ queryTail

/-- Shorthand for a JSON string value built from a Lean string literal. -/
def jstr (s : String) : JValue := .str s.data

/-- Key `"error"`. -/
def kError : Str := "error".data

/-- Key `"error_details"`. -/
def kErrorDetails : Str := "error_details".data

/-- Key `"raw_response"`. -/
def kRawResponse : Str := "raw_response".data

/-- Key `"metadata"`. -/
def kMetadata : Str := "metadata".data

/-- Key `"source_file"`. -/
def kSourceFile : Str := "source_file".data

/-- Key `"processing_timestamp"`. -/
def kTimestamp : Str := "processing_timestamp".data

/-- Key `"agent_model"`. -/
def kAgentModel : Str := "agent_model".data

/-- Key `"original_text_length"`. -/
def kOrigLen : Str := "original_text_length".data

/-- Key `"status"`. -/
def kStatus : Str := "status".data

/-- Key `"text"`. -/
def kText : Str := "text".data

/-- Key `"file_path"`. -/
def kFilePath : Str := "file_path".data

/-- Key `"ocr_error"`. -/
def kOcrError : Str := "ocr_error".data

/-- Python `source_file or "unknown"`. -/
def sourceOr (sf : JValue) : JValue :=
  if pyTruthy sf then sf else jstr "unknown"

/-- The `metadata` object stamped on a successful parse (lines 175-180):
source file, timestamp, model name, and the `len` of the OCR text input. -/
def metaObj (mdl ts : Str) (sf : JValue) (n : Nat) : JValue :=
  .obj [(kSourceFile, sourceOr sf), (kTimestamp, .str ts),
        (kAgentModel, .str mdl), (kOrigLen, .num (n : Int))]

/-- Error Result of the generic `except Exception` handler (lines 199-208). -/
def processingFailedDict (msg ts : Str) (sf : JValue) : JValue :=
  .obj [(kError, jstr "Processing failed"), (kErrorDetails, .str msg),
        (kMetadata, .obj [(kSourceFile, sourceOr sf), (kTimestamp, .str ts)])]

/-- Error Result of the `except json.JSONDecodeError` handler (lines 185-197);
`raw_response` holds the current value of `response_text`, which at that point
is the stripped and fence-trimmed text. -/
def jsonParseFailedDict (msg rawResp mdl ts : Str) (sf : JValue) : JValue :=
  .obj [(kError, jstr "JSON parsing failed"), (kErrorDetails, .str msg),
        (kRawResponse, .str rawResp),
        (kMetadata, .obj [(kSourceFile, sourceOr sf), (kTimestamp, .str ts),
                          (kAgentModel, .str mdl)])]

/-- Model of `structure_ocr_to_json` (lines 99-208).  The whole body runs
inside `try`; the only `json.JSONDecodeError` arises from `json.loads`, at
which point `response_text` holds the normalized text, and every other
exception (transport failures, `TypeError` from `len` or from the metadata
item assignment) lands in the generic handler.  The function itself never
raises, hence the result is always `Except.ok`. -/
def structure_ocr_to_json (remote : RemoteResult) (mdl ts : Str)
    (ocr_text source_file : JValue) : Except PyExn JValue :=
  match remote with
  | .fail msg => Except.ok (processingFailedDict msg ts source_file)
  | .ok raw =>
    let response_text := normalizeResponse raw
    match jsonLoads response_text with
    | Except.error msg =>
      Except.ok (jsonParseFailedDict msg response_text mdl ts source_file)
    | Except.ok structured =>
      match pyLen ocr_text with
      | Except.error e => Except.ok (processingFailedDict e.msg ts source_file)
      | Except.ok n =>
        match setKeyChecked structured kMetadata (metaObj mdl ts source_file n) with
        | Except.ok d => Except.ok d
        | Except.error e => Except.ok (processingFailedDict e.msg ts source_file)

/-- Error Result for a failed prior OCR stage (lines 226-233). -/
def ocrFailedDict (errv fp : JValue) (ts : Str) : JValue :=
  .obj [(kError, jstr "OCR processing failed"), (kOcrError, errv),
        (kMetadata, .obj [(kSourceFile, fp), (kTimestamp, .str ts)])]

/-- Error Result for empty OCR text (lines 240-246). -/
def noTextDict (sf : JValue) (ts : Str) : JValue :=
  .obj [(kError, jstr "No text extracted from OCR"),
        (kMetadata, .obj [(kSourceFile, sourceOr sf), (kTimestamp, .str ts)])]

/-- Error Result for an unparseable prior-stage payload (lines 251-258). -/
def invalidOcrJsonDict (msg ts : Str) : JValue :=
  .obj [(kError, jstr "Invalid OCR result JSON"), (kErrorDetails, .str msg),
        (kMetadata, .obj [(kTimestamp, .str ts)])]

/-- Model of `process_ocr_result` (lines 211-258).  Only
`json.JSONDecodeError` is caught (lines 251-258); the `.get` attribute
accesses are not guarded, so when the payload decodes to a non-dict value the
`AttributeError` propagates out of the function (an `Except.error`). -/
def process_ocr_result (remote : RemoteResult) (mdl ts : Str)
    (payload : Str) : Except PyExn JValue :=
  match jsonLoads payload with
  | Except.error msg => Except.ok (invalidOcrJsonDict msg ts)
  | Except.ok ocr_data =>
    match pyGet ocr_data kStatus .null with
    | Except.error e => Except.error e
    | Except.ok status =>
      if status.eqStr "success".data = false then
        match pyGet ocr_data kError (jstr "Unknown error") with
        | Except.error e => Except.error e
        | Except.ok errv =>
          match pyGet ocr_data kFilePath (jstr "unknown") with
          | Except.error e => Except.error e
          | Except.ok fp => Except.ok (ocrFailedDict errv fp ts)
      else
        match pyGet ocr_data kText (jstr "") with
        | Except.error e => Except.error e
        | Except.ok ocr_text =>
          match pyGet ocr_data kFilePath .null with
          | Except.error e => Except.error e
          | Except.ok source_file =>
            if pyTruthy ocr_text = false then Except.ok (noTextDict source_file ts)
            else structure_ocr_to_json remote mdl ts ocr_text source_file

/-- Head of Python `s.rsplit('.', 1)`: everything before the last dot, or the
whole string when there is no dot. -/
def dropLastDot (s : Str) : Str :=
  match pyRFind '.' s with
  | some i => s.take i
  | none => s

/-- Model of the CLI output-file computation (line 383):
`input_file.rsplit('.', 1)[0] + '_structured.json'` — the head of the rsplit
is the input up to its last dot anywhere in the path, or the whole input when
it has no dot. -/
def output_file (input : Str) : Str :=
  dropLastDot input ++ "_structured.json".data

/-- Final path component of a path (everything after the last slash). -/
def finalComponent (s : Str) : Str :=
  (s.reverse.takeWhile (fun c => !(c == '/'))).reverse

/-- Directory part of a path (everything up to and including the last
slash). -/
def dirPart (s : Str) : Str :=
  (s.reverse.dropWhile (fun c => !(c == '/'))).reverse

/-- Modelled from the spec: "a sibling file named by replacing the input's
final extension with `_structured.json`" — the extension is removed from the
final path component only, so the directory part is preserved. -/
def replaceFinalExt (s : Str) : Str :=
  dirPart s ++ dropLastDot (finalComponent s) ++ "_structured.json".data

/-- Predicate: the mapping carries a `metadata` object with a
`processing_timestamp` key. -/
def hasTsMeta (d : JValue) : Bool :=
  match d.lookupKey kMetadata with
  | some m => (m.lookupKey kTimestamp).isSome
  | none => false

/-- Predicate for an Error Result: an `error` key holding a string, plus
timestamped metadata. -/
def isErrorResultShape (d : JValue) : Bool :=
  (match d.lookupKey kError with
   | some (.str _) => true
   | _ => false) && hasTsMeta d

/-- Predicate for a Structured Result: a `metadata` object carrying the four
stamped keys. -/
def isStructuredResultShape (d : JValue) : Bool :=
  match d.lookupKey kMetadata with
  | some m =>
    (m.lookupKey kSourceFile).isSome && (m.lookupKey kTimestamp).isSome &&
    (m.lookupKey kAgentModel).isSome && (m.lookupKey kOrigLen).isSome
  | none => false

/-- A mapping is one of the two documented result shapes. -/
def resultShape (d : JValue) : Bool :=
  isErrorResultShape d || isStructuredResultShape d

/-! Helper lemmas. -/

lemma pyFind_eq_indexOf (c : Char) (t : Str) (h : c ∈ t) :
    pyFind c t = some (t.indexOf c) := by
  induction t with
  | nil => cases h
  | cons x xs ih =>
    by_cases hx : x = c
    · subst hx
      simp [pyFind, List.indexOf_cons_self]
    · have hm : c ∈ xs := by
        rcases List.mem_cons.mp h with h1 | h1
        · exact absurd h1.symm hx
        · exact h1
      simp [pyFind, hx, ih hm, List.indexOf_cons_ne _ hx]

lemma pyRFind_eq (c : Char) (t : Str) (h : c ∈ t) :
    pyRFind c t = some (t.length - 1 - t.reverse.indexOf c) := by
  have hm : c ∈ t.reverse := List.mem_reverse.mpr h
  simp [pyRFind, pyFind_eq_indexOf c t.reverse hm]

lemma pyFind_none (c : Char) (t : Str) (h : ¬ c ∈ t) : pyFind c t = none := by
  induction t with
  | nil => rfl
  | cons x xs ih =>
    have hx : ¬ x = c := fun hc => h (hc ▸ List.mem_cons_self x xs)
    have hm : ¬ c ∈ xs := fun hc => h (List.mem_cons_of_mem _ hc)
    simp [pyFind, hx, ih hm]

lemma lookupField_setField (k : Str) (v : JValue) (fs : List (Str × JValue)) :
    lookupField k (setField k v fs) = some v := by
  induction fs with
  | nil => simp [setField, lookupField]
  | cons p rest ih =>
    by_cases hp : p.1 = k
    · simp [setField, lookupField, hp]
    · simp [setField, lookupField, hp, ih]

lemma fence_head {t : Str} (h : fenceStr.isPrefixOf t = true) :
    ∃ r, t = '\x60' :: r := by
  cases t with
  | nil => simp [fenceStr, List.isPrefixOf] at h
  | cons b bs =>
    have hb : '\x60' = b := by
      simp [fenceStr, List.isPrefixOf, beq_iff_eq] at h
      exact h.1
    exact ⟨bs, by rw [← hb]⟩

lemma parseVal_backtick (fuel : Nat) (r : Str) :
    parseVal (fuel + 1) ('\x60' :: r) = Except.error "Expecting value".data := rfl

lemma jsonLoads_backtick (r : Str) :
    jsonLoads ('\x60' :: r) = Except.error "Expecting value".data := by
  show (match parseVal (2 * ('\x60' :: r).length + 8) ('\x60' :: r) with
    | Except.error m => Except.error m
    | Except.ok (v, rest) =>
      if (skipWs rest).isEmpty then Except.ok v
      else Except.error "Extra data".data) = Except.error "Expecting value".data
  rw [show 2 * ('\x60' :: r).length + 8 = (2 * ('\x60' :: r).length + 7) + 1 from rfl,
      parseVal_backtick]

lemma dropWhile_ws_append (ws raw : Str) (h : ∀ c ∈ ws, pyWs c = true) :
    (ws ++ raw).dropWhile pyWs = raw.dropWhile pyWs := by
  induction ws with
  | nil => rfl
  | cons x xs ih =>
    have hx : pyWs x = true := h x (List.mem_cons_self x xs)
    have hxs : ∀ c ∈ xs, pyWs c = true := fun c hc => h c (List.mem_cons_of_mem _ hc)
    simp [List.dropWhile, hx, ih hxs]

lemma pyStrip_ws_append (ws raw : Str) (h : ∀ c ∈ ws, pyWs c = true) :
    pyStrip (ws ++ raw) = pyStrip raw := by
  unfold pyStrip
  rw [dropWhile_ws_append ws raw h]

lemma shape_processingFailed (msg ts : Str) (sf : JValue) :
    resultShape (processingFailedDict msg ts sf) = true := rfl

lemma shape_jsonParseFailed (msg rawResp mdl ts : Str) (sf : JValue) :
    resultShape (jsonParseFailedDict msg rawResp mdl ts sf) = true := rfl

lemma shape_ocrFailed (errv : JValue) (fp : JValue) (ts : Str) :
    resultShape (ocrFailedDict errv fp ts) = true := rfl

lemma shape_noText (sf : JValue) (ts : Str) :
    resultShape (noTextDict sf ts) = true := rfl

lemma shape_invalidOcrJson (msg ts : Str) :
    resultShape (invalidOcrJsonDict msg ts) = true := rfl

lemma shape_stamped (mdl ts : Str) (sf : JValue) (n : Nat)
    (fs : List (Str × JValue)) :
    resultShape (.obj (setField kMetadata (metaObj mdl ts sf n) fs)) = true := by
  have hl : (JValue.obj (setField kMetadata (metaObj mdl ts sf n) fs)).lookupKey kMetadata
      = some (metaObj mdl ts sf n) := lookupField_setField _ _ _
  have h2 : isStructuredResultShape (.obj (setField kMetadata (metaObj mdl ts sf n) fs)) = true := by
    unfold isStructuredResultShape
    rw [hl]
    rfl
  simp [resultShape, h2]

/-- Every call of `structure_ocr_to_json` returns (never raises) a mapping of
one of the two documented shapes. -/
lemma structure_ok_shape (remote : RemoteResult) (mdl ts : Str)
    (ot sf : JValue) :
    ∃ d, structure_ocr_to_json remote mdl ts ot sf = Except.ok d ∧
      resultShape d = true := by
  cases remote with
  | fail msg => exact ⟨_, rfl, shape_processingFailed msg ts sf⟩
  | ok raw =>
    cases hj : jsonLoads (normalizeResponse raw) with
    | error msg =>
      refine ⟨jsonParseFailedDict msg (normalizeResponse raw) mdl ts sf, ?_,
        shape_jsonParseFailed ..⟩
      simp [structure_ocr_to_json, hj]
    | ok structured =>
      cases hn : pyLen ot with
      | error e =>
        refine ⟨processingFailedDict e.msg ts sf, ?_, shape_processingFailed ..⟩
        simp [structure_ocr_to_json, hj, hn]
      | ok n =>
        cases structured with
        | obj fs =>
          refine ⟨.obj (setField kMetadata (metaObj mdl ts sf n) fs), ?_,
            shape_stamped ..⟩
          simp [structure_ocr_to_json, hj, hn, setKeyChecked]
        | null =>
          refine ⟨processingFailedDict "object does not support item assignment".data ts sf,
            ?_, shape_processingFailed ..⟩
          simp [structure_ocr_to_json, hj, hn, setKeyChecked, PyExn.msg]
        | bool b =>
          refine ⟨processingFailedDict "object does not support item assignment".data ts sf,
            ?_, shape_processingFailed ..⟩
          simp [structure_ocr_to_json, hj, hn, setKeyChecked, PyExn.msg]
        | num m =>
          refine ⟨processingFailedDict "object does not support item assignment".data ts sf,
            ?_, shape_processingFailed ..⟩
          simp [structure_ocr_to_json, hj, hn, setKeyChecked, PyExn.msg]
        | str s =>
          refine ⟨processingFailedDict "object does not support item assignment".data ts sf,
            ?_, shape_processingFailed ..⟩
          simp [structure_ocr_to_json, hj, hn, setKeyChecked, PyExn.msg]
        | arr l =>
          refine ⟨processingFailedDict "object does not support item assignment".data ts sf,
            ?_, shape_processingFailed ..⟩
          simp [structure_ocr_to_json, hj, hn, setKeyChecked, PyExn.msg]

/-- Whatever `process_ocr_result` returns without raising has one of the two
documented shapes. -/
lemma process_ok_shape (remote : RemoteResult) (mdl ts : Str) (payload : Str)
    (d : JValue) (h : process_ocr_result remote mdl ts payload = Except.ok d) :
    resultShape d = true := by
  unfold process_ocr_result at h
  cases hj : jsonLoads payload with
  | error msg =>
    rw [hj] at h
    cases h
    exact shape_invalidOcrJson ..
  | ok v =>
    rw [hj] at h
    cases v with
    | obj fs =>
      simp only [pyGet] at h
      by_cases hs :
          JValue.eqStr ((lookupField kStatus fs).getD JValue.null) "success".data = false
      · rw [if_pos hs] at h
        cases h
        exact shape_ocrFailed ..
      · rw [if_neg hs] at h
        by_cases ht :
            pyTruthy ((lookupField kText fs).getD (jstr "")) = false
        · rw [if_pos ht] at h
          cases h
          exact shape_noText ..
        · rw [if_neg ht] at h
          obtain ⟨d', hd', hshape⟩ :=
            structure_ok_shape remote mdl ts ((lookupField kText fs).getD (jstr ""))
              ((lookupField kFilePath fs).getD JValue.null)
          rw [hd'] at h
          cases h
          exact hshape
    | null => simp [pyGet] at h
    | bool b => simp [pyGet] at h
    | num m => simp [pyGet] at h
    | str s => simp [pyGet] at h
    | arr l => simp [pyGet] at h

lemma resultShape_c {d : JValue} (h : resultShape d = true) :
    isErrorResultShape d = true ∨ isStructuredResultShape d = true := by
  simpa [resultShape, Bool.or_eq_true] using h

lemma hasTsMeta_of_shape {d : JValue} (h : resultShape d = true) :
    hasTsMeta d = true := by
  rcases resultShape_c h with h | h
  · rw [isErrorResultShape, Bool.and_eq_true] at h
    exact h.2
  · cases hm : d.lookupKey kMetadata with
    | none => rw [isStructuredResultShape, hm] at h; cases h
    | some m =>
      rw [isStructuredResultShape, hm] at h
      simp only [Bool.and_eq_true] at h
      rw [hasTsMeta, hm]
      exact h.1.1.2

lemma pyFind_append_of_mem (c : Char) (x y : Str) (h : c ∈ x) :
    pyFind c (x ++ y) = pyFind c x := by
  induction x with
  | nil => cases h
  | cons a as ih =>
    by_cases ha : a = c
    · simp [pyFind, ha]
    · have hm : c ∈ as := by
        rcases List.mem_cons.mp h with h1 | h1
        · exact absurd h1.symm ha
        · exact h1
      simp [pyFind, ha, ih hm]

lemma dirPart_append_finalComponent (s : Str) :
    dirPart s ++ finalComponent s = s := by
  unfold dirPart finalComponent
  rw [← List.reverse_append, List.takeWhile_append_dropWhile, List.reverse_reverse]

lemma outputEqAux (d b : Str) (hb : '.' ∈ b)
    (h1 : dirPart (d ++ b) = d) (h2 : finalComponent (d ++ b) = b) :
    output_file (d ++ b) = replaceFinalExt (d ++ b) := by
  have hmemrev : '.' ∈ b.reverse := List.mem_reverse.mpr hb
  have hfb : pyFind '.' b.reverse = some (b.reverse.indexOf '.') :=
    pyFind_eq_indexOf _ _ hmemrev
  have hjlt : b.reverse.indexOf '.' < b.length := by
    have h3 := List.indexOf_lt_length.mpr hmemrev
    simpa using h3
  have hfs : pyFind '.' (d ++ b).reverse = some (b.reverse.indexOf '.') := by
    rw [List.reverse_append, pyFind_append_of_mem _ _ _ hmemrev, hfb]
  have harith : (d ++ b).length - 1 - b.reverse.indexOf '.' =
      d.length + (b.length - 1 - b.reverse.indexOf '.') := by
    rw [List.length_append]
    omega
  have hr_s : pyRFind '.' (d ++ b) =
      some (d.length + (b.length - 1 - b.reverse.indexOf '.')) := by
    rw [pyRFind, hfs]
    simp only [Option.map_some']
    rw [harith]
  have hr_b : pyRFind '.' b = some (b.length - 1 - b.reverse.indexOf '.') := by
    rw [pyRFind, hfb]
    simp
  unfold output_file replaceFinalExt
  rw [h1, h2]
  unfold dropLastDot
  rw [hr_s, hr_b]
  show List.take (d.length + (b.length - 1 - b.reverse.indexOf '.')) (d ++ b) ++
      "_structured.json".data =
    (d ++ List.take (b.length - 1 - b.reverse.indexOf '.') b) ++ "_structured.json".data
  rw [List.take_append]

/-! Claim theorems. -/

/-- C1: the Response Normalizer's fence-trimming step behaves as specified on
its input text: when the text begins with the fence marker and contains at
least one opening and one closing brace, the text handed to the JSON decoder
is exactly the inclusive substring from the first opening brace to the last
closing brace; when the text does not begin with the fence marker, it is
handed over unchanged. -/
theorem C1_fence_trim (t : Str) :
    (fenceStr.isPrefixOf t = true → lbrace ∈ t → rbrace ∈ t →
      fenceTrim t =
        sliceIncl t (t.indexOf lbrace) (t.length - 1 - t.reverse.indexOf rbrace))
    ∧ (fenceStr.isPrefixOf t = false → fenceTrim t = t) := by
  constructor
  · intro hp hl hr
    simp [fenceTrim, hp, pyFind_eq_indexOf lbrace t hl, pyRFind_eq rbrace t hr]
  · intro hp
    simp [fenceTrim, hp]

/-- Witness for C1, on the fenced text with braces at indices 3 and 5. -/
theorem C1_fence_trim_witness :
    fenceTrim "\x60\x60\x60\x7bx\x7d".data =
      sliceIncl "\x60\x60\x60\x7bx\x7d".data
        ("\x60\x60\x60\x7bx\x7d".data.indexOf lbrace)
        ("\x60\x60\x60\x7bx\x7d".data.length - 1 -
          "\x60\x60\x60\x7bx\x7d".data.reverse.indexOf rbrace) :=
  (C1_fence_trim "\x60\x60\x60\x7bx\x7d".data).1 (by decide) (by decide) (by decide)

/-- C2 (amended): `structure_ocr_to_json` returns, on every input, exactly
one mapping that is a Structured Result or an Error Result and never raises;
`process_ocr_result` does so for every payload that is not valid JSON or that
decodes to a JSON object — but not for payloads decoding to a non-object
JSON value, where an uncaught `AttributeError` propagates (see the
counterexample). -/
theorem C2_entry_points_no_raise :
    (∀ (remote : RemoteResult) (mdl ts : Str) (ot sf : JValue),
      ∃ d, structure_ocr_to_json remote mdl ts ot sf = Except.ok d ∧
        (isErrorResultShape d = true ∨ isStructuredResultShape d = true))
    ∧ (∀ (remote : RemoteResult) (mdl ts payload : Str),
      (∀ v, jsonLoads payload = Except.ok v → ∃ fs, v = JValue.obj fs) →
      ∃ d, process_ocr_result remote mdl ts payload = Except.ok d ∧
        (isErrorResultShape d = true ∨ isStructuredResultShape d = true)) := by
  constructor
  · intro remote mdl ts ot sf
    obtain ⟨d, hd, hs⟩ := structure_ok_shape remote mdl ts ot sf
    exact ⟨d, hd, resultShape_c hs⟩
  · intro remote mdl ts payload hobj
    cases hj : jsonLoads payload with
    | error msg =>
      refine ⟨invalidOcrJsonDict msg ts, ?_, resultShape_c (shape_invalidOcrJson ..)⟩
      simp [process_ocr_result, hj]
    | ok v =>
      obtain ⟨fs, rfl⟩ := hobj v hj
      by_cases hs :
          JValue.eqStr ((lookupField kStatus fs).getD JValue.null) "success".data = false
      · refine ⟨ocrFailedDict ((lookupField kError fs).getD (jstr "Unknown error"))
          ((lookupField kFilePath fs).getD (jstr "unknown")) ts, ?_,
          resultShape_c (shape_ocrFailed ..)⟩
        simp [process_ocr_result, hj, pyGet, hs]
      · by_cases ht : pyTruthy ((lookupField kText fs).getD (jstr "")) = false
        · refine ⟨noTextDict ((lookupField kFilePath fs).getD JValue.null) ts, ?_,
            resultShape_c (shape_noText ..)⟩
          simp [process_ocr_result, hj, pyGet, hs, ht]
        · obtain ⟨d, hd, hsh⟩ := structure_ok_shape remote mdl ts
            ((lookupField kText fs).getD (jstr ""))
            ((lookupField kFilePath fs).getD JValue.null)
          refine ⟨d, ?_, resultShape_c hsh⟩
          simpa [process_ocr_result, hj, pyGet, hs, ht] using hd

/-- Counterexample to C2 as stated: the payload `"[]"` is a legal input, is
valid JSON, but decodes to a list, so `ocr_data.get("status")` raises an
`AttributeError` that no handler in `process_ocr_result` catches: the call
raises past the entry point's boundary instead of returning a mapping. -/
theorem C2_counterexample :
    process_ocr_result (RemoteResult.ok "\x7b\x7d".data) "m".data "T".data "[]".data =
      Except.error (PyExn.attributeError "object has no attribute get".data) := rfl

/-- C2 witness: at a concrete non-JSON payload, `process_ocr_result` returns
an Error Result. -/
theorem C2_witness :
    process_ocr_result (RemoteResult.ok "\x7b\x7d".data) "m".data "T".data "x".data =
      Except.ok (invalidOcrJsonDict "Expecting value".data "T".data) ∧
    (isErrorResultShape (invalidOcrJsonDict "Expecting value".data "T".data) = true ∨
      isStructuredResultShape (invalidOcrJsonDict "Expecting value".data "T".data) = true) := by
  obtain ⟨d, hd, hsh⟩ := C2_entry_points_no_raise.2 (RemoteResult.ok "\x7b\x7d".data)
    "m".data "T".data "x".data (by intro v hv; cases hv)
  have h2 : Except.ok (ε := PyExn) d =
      Except.ok (invalidOcrJsonDict "Expecting value".data "T".data) :=
    hd.symm.trans rfl
  cases h2
  exact ⟨hd, hsh⟩

/-- C8: the response text is stripped before the fence check and before
decoding — surrounding whitespace (in particular whitespace before the fence
marker) does not change the text handed to the decoder, and when the stripped
text carries no fence marker the decoder receives exactly the stripped text. -/
theorem C8_strip_then_fence :
    (∀ ws raw : Str, (∀ c ∈ ws, pyWs c = true) →
      normalizeResponse (ws ++ raw) = normalizeResponse raw)
    ∧ (∀ raw : Str, fenceStr.isPrefixOf (pyStrip raw) = false →
      normalizeResponse raw = pyStrip raw) := by
  constructor
  · intro ws raw h
    unfold normalizeResponse
    rw [pyStrip_ws_append ws raw h]
  · intro raw h
    simp [normalizeResponse, fenceTrim, h]

/-- Witness for C8: a single leading blank before a fenced response does not
change the decoder input. -/
theorem C8_strip_then_fence_witness :
    normalizeResponse (' ' :: "\x60\x60\x60\x7bx\x7d".data) =
      normalizeResponse "\x60\x60\x60\x7bx\x7d".data :=
  C8_strip_then_fence.1 [' '] "\x60\x60\x60\x7bx\x7d".data (by decide)

/-- C3: whenever the decoded model output is an object, the Structured Result
is that object with a `metadata` key stamped on it; the stamped `metadata`
unconditionally overwrites any `metadata` key already present (for every
field list `fs`, looking up `metadata` yields the stamped object), it carries
the keys `source_file`, `processing_timestamp`, `agent_model` and
`original_text_length`, the last one equal to the character count of the OCR
text, which is embedded verbatim in the text sent to the model. -/
theorem C3_metadata_stamp (raw mdl ts s : Str) (sf : JValue)
    (fs : List (Str × JValue))
    (hj : jsonLoads (normalizeResponse raw) = Except.ok (JValue.obj fs)) :
    (structure_ocr_to_json (RemoteResult.ok raw) mdl ts (JValue.str s) sf =
      Except.ok (JValue.obj (setField kMetadata (metaObj mdl ts sf s.length) fs)))
    ∧ ((JValue.obj (setField kMetadata (metaObj mdl ts sf s.length) fs)).lookupKey
        kMetadata = some (metaObj mdl ts sf s.length))
    ∧ (metaObj mdl ts sf s.length).lookupKey kSourceFile = some (sourceOr sf)
    ∧ (metaObj mdl ts sf s.length).lookupKey kTimestamp = some (JValue.str ts)
    ∧ (metaObj mdl ts sf s.length).lookupKey kAgentModel = some (JValue.str mdl)
    ∧ (metaObj mdl ts sf s.length).lookupKey kOrigLen =
        some (JValue.num (s.length : Int))
    ∧ ∃ a b, userQuery (JValue.str s) = a ++ s ++ b := by
  refine ⟨?_, lookupField_setField .., rfl, rfl, rfl, rfl,
    queryHead, queryTail, rfl⟩
  simp [structure_ocr_to_json, hj, pyLen, setKeyChecked]

/-- Witness for C3, with the response `"{}"` and the three-character OCR text
`"abc"`. -/
theorem C3_metadata_stamp_witness :
    structure_ocr_to_json (RemoteResult.ok "\x7b\x7d".data) "m".data "T".data
        (JValue.str "abc".data) JValue.null =
      Except.ok (JValue.obj (setField kMetadata
        (metaObj "m".data "T".data JValue.null 3) [])) :=
  (C3_metadata_stamp "\x7b\x7d".data "m".data "T".data "abc".data JValue.null [] rfl).1

/-- C4 (amended): on decode failure `structure_ocr_to_json` never raises and
returns an Error Result carrying the decoder's diagnostic and the text as
handed to the decoder — the stripped, fence-trimmed text, not the verbatim
response (see the counterexample); in the particular case of a stripped text
that begins with the fence marker but lacks an opening or a closing brace,
fence-trimming leaves the stripped text unchanged, decoding fails, and that
stripped text is preserved in the error payload. -/
theorem C4_parse_error_payload :
    (∀ (raw mdl ts msg : Str) (ot sf : JValue),
      jsonLoads (normalizeResponse raw) = Except.error msg →
      structure_ocr_to_json (RemoteResult.ok raw) mdl ts ot sf =
        Except.ok (jsonParseFailedDict msg (normalizeResponse raw) mdl ts sf))
    ∧ (∀ raw : Str, fenceStr.isPrefixOf (pyStrip raw) = true →
      (¬ lbrace ∈ pyStrip raw ∨ ¬ rbrace ∈ pyStrip raw) →
      normalizeResponse raw = pyStrip raw ∧
        jsonLoads (normalizeResponse raw) = Except.error "Expecting value".data) := by
  constructor
  · intro raw mdl ts msg ot sf hj
    simp [structure_ocr_to_json, hj]
  · intro raw hp hmem
    obtain ⟨r, hr⟩ := fence_head hp
    have hnorm : normalizeResponse raw = pyStrip raw := by
      unfold normalizeResponse fenceTrim
      rw [if_pos hp]
      rcases hmem with hm | hm
      · rw [pyFind_none lbrace _ hm]
      · have h2 : pyFind rbrace (pyStrip raw).reverse = none :=
          pyFind_none _ _ (fun hc => hm (List.mem_reverse.mp hc))
        rw [pyRFind, h2]
        cases pyFind lbrace (pyStrip raw) <;> rfl
    refine ⟨hnorm, ?_⟩
    rw [hnorm, hr]
    exact jsonLoads_backtick r

/-- Counterexample to C4 as stated: for the response `"\x60\x60\x60\x7bx\x7d"`
(a fenced, invalid JSON body), decoding fails but the error payload's
`raw_response` is the fence-trimmed text `"\x7bx\x7d"`, not the original
response text. -/
theorem C4_counterexample :
    structure_ocr_to_json (RemoteResult.ok "\x60\x60\x60\x7bx\x7d".data) "m".data
        "T".data (jstr "abc") JValue.null =
      Except.ok (jsonParseFailedDict "Expecting property name".data "\x7bx\x7d".data
        "m".data "T".data JValue.null)
    ∧ "\x7bx\x7d".data ≠ "\x60\x60\x60\x7bx\x7d".data := by
  exact ⟨rfl, by decide⟩

/-- Witness for C4 (amended), on a fenced response with no braces at all. -/
theorem C4_parse_error_payload_witness :
    normalizeResponse "\x60\x60\x60bad".data = pyStrip "\x60\x60\x60bad".data ∧
      jsonLoads (normalizeResponse "\x60\x60\x60bad".data) =
        Except.error "Expecting value".data :=
  C4_parse_error_payload.2 "\x60\x60\x60bad".data (by decide) (Or.inl (by decide))

/-- C5: for every prior-stage payload that decodes to an object whose
`status` is not the success marker and that carries an `error` message, the
entry point returns an Error Result whose `ocr_error` detail is exactly that
message, and the outcome is independent of the remote model (no remote call
is consulted). -/
theorem C5_prior_stage_gate (r1 r2 : RemoteResult) (m1 m2 ts payload : Str)
    (fs : List (Str × JValue)) (ev : JValue)
    (hj : jsonLoads payload = Except.ok (JValue.obj fs))
    (hs : JValue.eqStr ((lookupField kStatus fs).getD JValue.null)
      "success".data = false)
    (he : lookupField kError fs = some ev) :
    process_ocr_result r1 m1 ts payload =
      Except.ok (ocrFailedDict ev ((lookupField kFilePath fs).getD (jstr "unknown")) ts)
    ∧ process_ocr_result r1 m1 ts payload = process_ocr_result r2 m2 ts payload := by
  have h1 : ∀ (r : RemoteResult) (m : Str), process_ocr_result r m ts payload =
      Except.ok (ocrFailedDict ev ((lookupField kFilePath fs).getD (jstr "unknown")) ts) := by
    intro r m
    simp [process_ocr_result, hj, pyGet, hs, he]
  exact ⟨h1 r1 m1, (h1 r1 m1).trans (h1 r2 m2).symm⟩

/-- Witness for C5, on the payload
`\x7b"status": "error", "error": "scan failed"\x7d`: the detail equals
`"scan failed"`. -/
theorem C5_prior_stage_gate_witness :
    process_ocr_result (RemoteResult.ok "\x7b\x7d".data) "m".data "T".data
        "\x7b\"status\": \"error\", \"error\": \"scan failed\"\x7d".data =
      Except.ok (ocrFailedDict (JValue.str "scan failed".data) (jstr "unknown") "T".data) :=
  (C5_prior_stage_gate (RemoteResult.ok "\x7b\x7d".data) (RemoteResult.fail [])
    "m".data "x".data "T".data
    "\x7b\"status\": \"error\", \"error\": \"scan failed\"\x7d".data
    [("status".data, JValue.str "error".data),
     ("error".data, JValue.str "scan failed".data)]
    (JValue.str "scan failed".data) rfl rfl rfl).1

/-- C6: for every prior-stage payload decoding to an object with a success
`status` whose retrieved OCR text is the empty string, the entry point
returns the "No text extracted from OCR" Error Result, and the outcome is
independent of the remote model (no remote call is made). -/
theorem C6_empty_text_gate (r1 r2 : RemoteResult) (m1 m2 ts payload : Str)
    (fs : List (Str × JValue))
    (hj : jsonLoads payload = Except.ok (JValue.obj fs))
    (hs : JValue.eqStr ((lookupField kStatus fs).getD JValue.null)
      "success".data = true)
    (ht : (lookupField kText fs).getD (jstr "") = jstr "") :
    process_ocr_result r1 m1 ts payload =
      Except.ok (noTextDict ((lookupField kFilePath fs).getD JValue.null) ts)
    ∧ process_ocr_result r1 m1 ts payload = process_ocr_result r2 m2 ts payload := by
  have ht' : pyTruthy ((lookupField kText fs).getD (jstr "")) = false := by
    rw [ht]
    rfl
  have h1 : ∀ (r : RemoteResult) (m : Str), process_ocr_result r m ts payload =
      Except.ok (noTextDict ((lookupField kFilePath fs).getD JValue.null) ts) := by
    intro r m
    simp [process_ocr_result, hj, pyGet, hs, ht']
  exact ⟨h1 r1 m1, (h1 r1 m1).trans (h1 r2 m2).symm⟩

/-- Witness for C6, on the payload
`\x7b"status": "success", "text": ""\x7d` named by the spec. -/
theorem C6_empty_text_gate_witness :
    process_ocr_result (RemoteResult.ok "\x7b\x7d".data) "m".data "T".data
        "\x7b\"status\": \"success\", \"text\": \"\"\x7d".data =
      Except.ok (noTextDict JValue.null "T".data) :=
  (C6_empty_text_gate (RemoteResult.ok "\x7b\x7d".data) (RemoteResult.fail [])
    "m".data "x".data "T".data
    "\x7b\"status\": \"success\", \"text\": \"\"\x7d".data
    [("status".data, JValue.str "success".data), ("text".data, JValue.str [])]
    rfl rfl rfl).1

/-- C9: for every prior-stage payload decoding to an object with a success
`status` whose `text` value is absent or falsy (Python truthiness), the entry
point returns the "No text extracted from OCR" Error Result, and the outcome
is independent of the remote model (no remote call is made). -/
theorem C9_falsy_text_gate (r1 r2 : RemoteResult) (m1 m2 ts payload : Str)
    (fs : List (Str × JValue))
    (hj : jsonLoads payload = Except.ok (JValue.obj fs))
    (hs : JValue.eqStr ((lookupField kStatus fs).getD JValue.null)
      "success".data = true)
    (ht : pyTruthy ((lookupField kText fs).getD (jstr "")) = false) :
    process_ocr_result r1 m1 ts payload =
      Except.ok (noTextDict ((lookupField kFilePath fs).getD JValue.null) ts)
    ∧ process_ocr_result r1 m1 ts payload = process_ocr_result r2 m2 ts payload := by
  have h1 : ∀ (r : RemoteResult) (m : Str), process_ocr_result r m ts payload =
      Except.ok (noTextDict ((lookupField kFilePath fs).getD JValue.null) ts) := by
    intro r m
    simp [process_ocr_result, hj, pyGet, hs, ht]
  exact ⟨h1 r1 m1, (h1 r1 m1).trans (h1 r2 m2).symm⟩

/-- Witness for C9, on the payload `\x7b"status": "success", "text": null\x7d`
(a null `text`, as left by a prior stage). -/
theorem C9_falsy_text_gate_witness :
    process_ocr_result (RemoteResult.ok "\x7b\x7d".data) "m".data "T".data
        "\x7b\"status\": \"success\", \"text\": null\x7d".data =
      Except.ok (noTextDict JValue.null "T".data) :=
  (C9_falsy_text_gate (RemoteResult.ok "\x7b\x7d".data) (RemoteResult.fail [])
    "m".data "x".data "T".data
    "\x7b\"status\": \"success\", \"text\": null\x7d".data
    [("status".data, JValue.str "success".data), ("text".data, JValue.null)]
    rfl rfl rfl).1

/-- C7 (amended): the CLI output name is the input path split at its last dot
anywhere in the path (or taken whole when it has no dot) with
`_structured.json` appended; this equals replacing the input's final
extension whenever the final path component contains a dot, but for paths
whose only dots lie in directory components the computed name is a truncated
non-sibling name (see the counterexample). -/
theorem C7_output_name (s : Str) (hdot : '.' ∈ finalComponent s) :
    output_file s = replaceFinalExt s := by
  have hdec : dirPart s ++ finalComponent s = s := dirPart_append_finalComponent s
  have h := outputEqAux (dirPart s) (finalComponent s) hdot
    (by rw [hdec]) (by rw [hdec])
  rw [hdec] at h
  exact h

/-- Counterexample to C7 as stated: for the input path `"a.b/c"` (a dot in
the directory name only) the code writes `"a_structured.json"`, which is not
the sibling name obtained by replacing the final extension. -/
theorem C7_counterexample :
    output_file "a.b/c".data = "a_structured.json".data
    ∧ replaceFinalExt "a.b/c".data = "a.b/c_structured.json".data
    ∧ output_file "a.b/c".data ≠ replaceFinalExt "a.b/c".data :=
  ⟨rfl, rfl, by decide⟩

/-- Witness for C7 (amended), on the path `"dir/doc.txt"`. -/
theorem C7_output_name_witness :
    output_file "dir/doc.txt".data = replaceFinalExt "dir/doc.txt".data :=
  C7_output_name "dir/doc.txt".data (by decide)

/-- C10: every mapping actually returned by either entry point, on every
branch, carries a `metadata` object with a `processing_timestamp` key. -/
theorem C10_metadata_timestamp :
    (∀ (remote : RemoteResult) (mdl ts : Str) (ot sf d : JValue),
      structure_ocr_to_json remote mdl ts ot sf = Except.ok d →
      hasTsMeta d = true)
    ∧ (∀ (remote : RemoteResult) (mdl ts payload : Str) (d : JValue),
      process_ocr_result remote mdl ts payload = Except.ok d →
      hasTsMeta d = true) := by
  constructor
  · intro remote mdl ts ot sf d hd
    obtain ⟨d', hd', hsh⟩ := structure_ok_shape remote mdl ts ot sf
    have h2 : Except.ok (ε := PyExn) d' = Except.ok d := hd'.symm.trans hd
    cases h2
    exact hasTsMeta_of_shape hsh
  · intro remote mdl ts payload d hd
    exact hasTsMeta_of_shape (process_ok_shape remote mdl ts payload d hd)

/-- Witness for C10, on a concrete invalid-payload branch of
`process_ocr_result`. -/
theorem C10_metadata_timestamp_witness :
    hasTsMeta (invalidOcrJsonDict "Expecting value".data "T".data) = true :=
  C10_metadata_timestamp.2 (RemoteResult.ok "\x7b\x7d".data) "m".data "T".data
    "x".data (invalidOcrJsonDict "Expecting value".data "T".data) rfl


